import Mathlib

/-!
Shallow embedding of the Sequelize-ORM CRUD demo.

The executable source (src/index.js) contributes: the Sequelize `user`
model definition (attributes id / username / password / age with their
declared constraints, options timestamps:false and freezeTableName:true),
the startup sequence (authenticate with a logging catch handler,
User.sync with alter:true and a logging catch handler, app.listen(3000)).

The HTTP route layer (the app.js / routes/users.js of the project
structure documented in src/README.md) is not present in the repository
sources; the route handlers below are modelled from the specification
(spec sections 2, 4.1, 7, 8), following the handler shape shown in the
README tutorial (try/catch around one ORM call, 404 on a missing row,
500 on any thrown error).  The column constraints declared in
src/index.js (username allowNull:false and its uniqueness) are enforced
by the database engine on every write, so the modelled write operations
fail with an error where the engine would reject the statement.
-/

-- ## Data model (src/index.js lines 17 to 42)

/-- Column data types used by the model. -/
inductive DType where
  | int
  | str
deriving Repr, DecidableEq

/-- One column declaration: name, type and the Sequelize per-column
options that src/index.js sets (allowNull, uniqueness, primaryKey,
autoIncrement, defaultValue). -/
structure AttrDef where
  name : String
  dtype : DType
  allowNull : Bool
  uniq : Bool
  primaryKey : Bool
  autoIncrement : Bool
  defaultValue : Option Int
deriving Repr, DecidableEq

/-- The id column: integer, autoIncrement, primaryKey (lines 20 to 24). -/
def idAttr : AttrDef := ⟨"id", .int, true, false, true, true, none⟩

/-- The username column: string, allowNull false, declared as a
uniqueness constraint (lines 25 to 29). -/
def usernameAttr : AttrDef := ⟨"username", .str, false, true, false, false, none⟩

/-- The password column: string, no further options (lines 30 to 32). -/
def passwordAttr : AttrDef := ⟨"password", .str, true, false, false, false, none⟩

/-- The age column: integer with defaultValue 22 (lines 33 to 36). -/
def ageAttr : AttrDef := ⟨"age", .int, true, false, false, false, some 22⟩

/-- Model-level options passed as the third argument of
sequelize.define (lines 38 to 41). -/
structure ModelOptions where
  timestamps : Bool
  freezeTableName : Bool
deriving Repr, DecidableEq

/-- The model name given to sequelize.define (line 18). -/
def userModelName : String := "user"

/-- src/index.js lines 38 to 41: timestamps false, freezeTableName true. -/
def userOptions : ModelOptions := ⟨false, true⟩

/-- The attribute list of the user model, in declaration order. -/
def userAttributes : List AttrDef := [idAttr, usernameAttr, passwordAttr, ageAttr]

/-- Sequelize pluralizes a model name to obtain the default table name;
for the regular noun used here that appends an s. -/
def pluralize (s : String) : String := s ++ "s"

/-- The table name Sequelize derives from the model name: kept verbatim
when freezeTableName is set, pluralized otherwise. -/
def tableName (modelName : String) (opts : ModelOptions) : String :=
  if opts.freezeTableName then modelName else pluralize modelName

/-- The columns of the synced table: the declared attributes, plus the
createdAt / updatedAt pair exactly when timestamps is enabled. -/
def tableColumns (attrs : List AttrDef) (opts : ModelOptions) : List String :=
  attrs.map (fun a => a.name) ++
    (if opts.timestamps then ["createdAt", "updatedAt"] else [])

-- ## Database state

/-- A persisted row of the user table.  Its fields are exactly the four
declared columns (timestamps are disabled, so there is no createdAt or
updatedAt).  password is optional, as its column allows null. -/
structure Row where
  id : Nat
  username : String
  password : Option String
  age : Int
deriving Repr, DecidableEq

/-- The table contents plus the auto-increment counter backing the id
primary key. -/
structure DB where
  rows : List Row
  nextId : Nat
deriving Repr, DecidableEq

/-- Errors the database engine raises on a write that violates a
declared column constraint of the model (src/index.js lines 25 to 29):
a null username, or a duplicate username. -/
inductive DbError where
  | validationNull
  | uniqueViolation
deriving Repr, DecidableEq

/-- Modelled from the spec: the ORM findAll call used by GET /users
(spec section 4.1, List) — returns all rows. -/
def findAll (db : DB) : List Row := db.rows

/-- Modelled from the spec: the ORM findByPk call used by the
per-id routes — looks a row up by primary key. -/
def findByPk (db : DB) (i : Nat) : Option Row :=
  db.rows.find? (fun r => r.id == i)

/-- Whether some stored row already carries the given username (the
check the engine performs for the uniqueness constraint). -/
def usernameTaken (db : DB) (u : String) : Bool :=
  db.rows.any (fun r => r.username == u)

/-- The JSON body of POST /users: username, optional password,
optional age (spec section 4.1, Create). -/
structure CreateBody where
  username : Option String
  password : Option String
  age : Option Int
deriving Repr, DecidableEq

/-- Modelled from the spec: the ORM create call used by POST /users
(spec section 4.1, Create).  A missing username violates allowNull
false; a duplicate username violates the uniqueness constraint; on
success the row is stored with the generated auto-increment id and the
declared default of 22 when no age is supplied. -/
def userCreate (db : DB) (b : CreateBody) : Except DbError (Row × DB) :=
  match b.username with
  | none => .error .validationNull
  | some u =>
    if usernameTaken db u then .error .uniqueViolation
    else
      let r : Row := ⟨db.nextId, u, b.password, b.age.getD 22⟩
      .ok (r, ⟨db.rows ++ [r], db.nextId + 1⟩)

/-- Modelled from the spec: the update call used by PUT /users/:id
(spec section 4.1, Update-by-id) — overwrites the username and age
fields of the row with the given id, leaving id and password as they
were; yields none when no such row exists, and an engine error when a
different row already carries the new username (uniqueness constraint
of src/index.js line 28). -/
def userUpdate (db : DB) (i : Nat) (u : String) (a : Int) :
    Except DbError (Option (Row × DB)) :=
  match findByPk db i with
  | none => .ok none
  | some r =>
    if db.rows.any (fun x => x.id != i && x.username == u) then
      .error .uniqueViolation
    else
      let r2 : Row := ⟨r.id, u, r.password, a⟩
      .ok (some (r2, ⟨db.rows.map (fun x => if x.id == i then r2 else x), db.nextId⟩))

/-- Modelled from the spec: the destroy call used by DELETE /users/:id
(spec section 4.1, Delete-by-id) — removes the row with the given id,
yielding none when no such row exists. -/
def userDestroy (db : DB) (i : Nat) : Option DB :=
  match findByPk db i with
  | none => none
  | some _ => some ⟨db.rows.filter (fun r => r.id != i), db.nextId⟩

-- ## HTTP layer

/-- HTTP methods used by the five routes. -/
inductive Method where
  | get
  | post
  | put
  | del
deriving Repr, DecidableEq

/-- The two path shapes the route table distinguishes:
the collection path /users and the element path /users/:id. -/
inductive PathPattern where
  | usersRoot
  | usersId
deriving Repr, DecidableEq

/-- The five registered route handlers. -/
inductive RouteId where
  | createUser
  | listUsers
  | readUser
  | updateUser
  | deleteUser
deriving Repr, DecidableEq

/-- Modelled from the spec: the Express route table of the app (app.js
/ routes/users.js of the README project structure, absent from src/) —
POST /users, GET /users, GET /users/:id, PUT /users/:id,
DELETE /users/:id, and nothing else (spec section 2). -/
def dispatch : Method → PathPattern → Option RouteId
  | .post, .usersRoot => some .createUser
  | .get, .usersRoot => some .listUsers
  | .get, .usersId => some .readUser
  | .put, .usersId => some .updateUser
  | .del, .usersId => some .deleteUser
  | _, _ => none

/-- A parsed request to one of the five routes, with the data each
handler reads from the path parameter and the JSON body. -/
inductive Request where
  | createReq (b : CreateBody)
  | listReq
  | readReq (i : Nat)
  | updateReq (i : Nat) (u : String) (a : Int)
  | deleteReq (i : Nat)
deriving Repr, DecidableEq

/-- A response body: a JSON-serialized row, row list or message object,
or a plain text payload (used by the 404 and 500 responses). -/
inductive RespBody where
  | jsonRow (r : Row)
  | jsonRows (rs : List Row)
  | jsonMsg (m : String)
  | text (s : String)
deriving Repr, DecidableEq

/-- Whether a response body is JSON-serialized. -/
def RespBody.isJson : RespBody → Bool
  | .jsonRow _ => true
  | .jsonRows _ => true
  | .jsonMsg _ => true
  | .text _ => false

/-- An HTTP response: status code and body. -/
structure Response where
  status : Nat
  body : RespBody
deriving Repr, DecidableEq

/-- The generic catch-all response of every handler. -/
def serverError : Response := ⟨500, .text ("Internal Server Error")⟩

/-- The response of the per-id routes when the row is absent. -/
def notFound : Response := ⟨404, .text ("User not found")⟩

/-- Modelled from the spec: the five route handlers (spec sections 2,
4.1 and 7; their code, the app.js / routes/users.js of the README
project structure, is absent from src/).  Each handler delegates to one
data-access operation, serializes a successful result as JSON with
status 200, answers 404 when the addressed row is absent, and converts
any thrown error to a 500. -/
def handle : Request → DB → Response × DB
  | .createReq b, db =>
    match userCreate db b with
    | .error _ => (serverError, db)
    | .ok (r, db2) => (⟨200, .jsonRow r⟩, db2)
  | .listReq, db => (⟨200, .jsonRows (findAll db)⟩, db)
  | .readReq i, db =>
    match findByPk db i with
    | none => (notFound, db)
    | some r => (⟨200, .jsonRow r⟩, db)
  | .updateReq i u a, db =>
    match userUpdate db i u a with
    | .error _ => (serverError, db)
    | .ok none => (notFound, db)
    | .ok (some (r, db2)) => (⟨200, .jsonRow r⟩, db2)
  | .deleteReq i, db =>
    match userDestroy db i with
    | none => (notFound, db)
    | some db2 => (⟨200, .jsonMsg ("User deleted successfully")⟩, db2)

-- ## Startup sequence (src/index.js lines 9 to 60)

/-- The mode of a Sequelize sync call: plain sync creates the table if
missing, force drops and recreates it, alter changes it in place
(src/index.js lines 48 to 50). -/
inductive SyncMode where
  | createIfMissing
  | force
  | alter
deriving Repr, DecidableEq

/-- Whether a sync mode drops an existing table. -/
def SyncMode.dropsExistingTable : SyncMode → Bool
  | .force => true
  | _ => false

/-- Observable effects of the startup code: console logging, the
schema-sync call, starting the HTTP listener, and (for stating what the
startup handlers never do) sending an HTTP response. -/
inductive Effect where
  | log (msg : String)
  | syncTable (table : String) (mode : SyncMode)
  | httpListen (port : Nat)
  | httpResponse (status : Nat)
deriving Repr, DecidableEq

/-- Whether an effect is a schema-sync call. -/
def Effect.isSyncCall : Effect → Bool
  | .syncTable _ _ => true
  | _ => false

/-- Whether an effect produces HTTP traffic (a listener or a response). -/
def Effect.isHttpEffect : Effect → Bool
  | .httpListen _ => true
  | .httpResponse _ => true
  | _ => false

/-- Whether an effect is a console log. -/
def Effect.isLogEffect : Effect → Bool
  | .log _ => true
  | _ => false

/-- The then-handler of sequelize.authenticate (src/index.js line 12). -/
def authSuccessHandler : List Effect := [.log ("Database Connected")]

/-- The catch-handler of sequelize.authenticate (src/index.js line 13):
it only logs; no HTTP response of any status is produced. -/
def authFailureHandler (err : String) : List Effect :=
  [.log ("Database Connection Failed " ++ err)]

/-- The then-handler of User.sync (src/index.js line 53). -/
def syncSuccessHandler : List Effect := [.log ("Model Created")]

/-- The catch-handler of User.sync (src/index.js line 54): it only
logs; no HTTP response of any status is produced. -/
def syncFailureHandler (err : String) : List Effect := [.log (err)]

/-- The effects of module evaluation of src/index.js, as a function of
the outcomes of the two asynchronous database operations: authenticate
settles and its handler logs, User.sync with alter:true is issued
against the model's table and its handler logs, and app.listen(3000)
runs unconditionally (lines 58 to 60). -/
def startupEffects (auth : Except String Unit) (syncOutcome : Except String Unit) :
    List Effect :=
  (match auth with
    | .ok _ => authSuccessHandler
    | .error e => authFailureHandler e)
  ++ [.syncTable (tableName userModelName userOptions) .alter]
  ++ (match syncOutcome with
    | .ok _ => syncSuccessHandler
    | .error e => syncFailureHandler e)
  ++ [.httpListen 3000]

-- ## Invariants

/-- No two stored rows share a primary key. -/
def UniqueIds (db : DB) : Prop := (db.rows.map (fun r => r.id)).Nodup

/-- No two stored rows share a username (the declared uniqueness
constraint of src/index.js line 28). -/
def UniqueUsernames (db : DB) : Prop := (db.rows.map (fun r => r.username)).Nodup

/-- Every stored id is below the auto-increment counter. -/
def IdsBelowNext (db : DB) : Prop := ∀ r ∈ db.rows, r.id < db.nextId

/-- The database invariant: distinct ids, distinct usernames, and all
ids below the auto-increment counter. -/
def DbInv (db : DB) : Prop := UniqueIds db ∧ UniqueUsernames db ∧ IdsBelowNext db

-- ## Helper lemmas

lemma usernameTaken_eq_false {db : DB} {u : String}
    (h : usernameTaken db u = false) : ∀ r ∈ db.rows, r.username ≠ u := by
  simpa [usernameTaken, List.any_eq_false] using h

lemma invCreate (db : DB) (u : String) (p : Option String) (a : Option Int)
    (ht : usernameTaken db u = false) (hinv : DbInv db) :
    DbInv ⟨db.rows ++ [⟨db.nextId, u, p, a.getD 22⟩], db.nextId + 1⟩ := by
  obtain ⟨hid, hun, hlt⟩ := hinv
  refine ⟨?_, ?_, ?_⟩
  · unfold UniqueIds at hid ⊢
    simp only [List.map_append, List.map_cons, List.map_nil]
    refine List.Nodup.append hid (List.nodup_singleton _) ?_
    rw [List.disjoint_singleton]
    intro hmem
    simp only [List.mem_map] at hmem
    obtain ⟨x, hx, hxid⟩ := hmem
    have hxid2 : x.id = db.nextId := hxid
    have := hlt x hx
    omega
  · unfold UniqueUsernames at hun ⊢
    simp only [List.map_append, List.map_cons, List.map_nil]
    refine List.Nodup.append hun (List.nodup_singleton _) ?_
    rw [List.disjoint_singleton]
    intro hmem
    simp only [List.mem_map] at hmem
    obtain ⟨x, hx, hxu⟩ := hmem
    exact usernameTaken_eq_false ht x hx hxu
  · intro r hr
    simp only [List.mem_append, List.mem_singleton] at hr
    show r.id < db.nextId + 1
    rcases hr with hr | hr
    · have := hlt r hr
      omega
    · subst hr
      show db.nextId < db.nextId + 1
      omega

lemma nodupUsernamesUpdate (rows : List Row) (i : Nat) (r2 : Row)
    (hids : (rows.map (fun r => r.id)).Nodup)
    (hus : (rows.map (fun r => r.username)).Nodup)
    (hguard : ∀ x ∈ rows, x.id ≠ i → x.username ≠ r2.username) :
    ((rows.map (fun x => if x.id == i then r2 else x)).map
      (fun r => r.username)).Nodup := by
  induction rows with
  | nil => simp
  | cons a tl ih =>
    have hida : a.id ∉ tl.map (fun r => r.id) :=
      (List.nodup_cons.mp (by simpa using hids)).1
    have hidtl : (tl.map (fun r => r.id)).Nodup :=
      (List.nodup_cons.mp (by simpa using hids)).2
    have husa : a.username ∉ tl.map (fun r => r.username) :=
      (List.nodup_cons.mp (by simpa using hus)).1
    have hustl : (tl.map (fun r => r.username)).Nodup :=
      (List.nodup_cons.mp (by simpa using hus)).2
    have ihtl := ih hidtl hustl (fun x hx => hguard x (List.mem_cons_of_mem a hx))
    simp only [List.map_cons, List.nodup_cons]
    refine ⟨?_, ihtl⟩
    intro hmem
    simp only [List.mem_map] at hmem
    obtain ⟨y, hy, hyeq⟩ := hmem
    obtain ⟨x, hx, hxy⟩ := hy
    subst hxy
    by_cases ha : a.id = i
    · have hxid : x.id ≠ i := by
        intro hcontra
        exact hida (List.mem_map.mpr ⟨x, hx, by rw [hcontra, ha]⟩)
      have h1 : (if x.id == i then r2 else x) = x := by simp [hxid]
      have h2 : (if a.id == i then r2 else a) = r2 := by simp [ha]
      rw [h1, h2] at hyeq
      exact hguard x (List.mem_cons_of_mem a hx) hxid hyeq
    · have h2 : (if a.id == i then r2 else a) = a := by simp [ha]
      rw [h2] at hyeq
      by_cases hxid : x.id = i
      · have h1 : (if x.id == i then r2 else x) = r2 := by simp [hxid]
        rw [h1] at hyeq
        exact hguard a (List.mem_cons_self a tl) ha hyeq.symm
      · have h1 : (if x.id == i then r2 else x) = x := by simp [hxid]
        rw [h1] at hyeq
        exact husa (List.mem_map.mpr ⟨x, hx, hyeq⟩)

lemma anyCollision_eq_false {db : DB} {i : Nat} {u : String}
    (h : db.rows.any (fun x => x.id != i && x.username == u) = false) :
    ∀ x ∈ db.rows, x.id ≠ i → x.username ≠ u := by
  intro x hx hxi
  have := List.any_eq_false.mp h x hx
  simp only [Bool.and_eq_true, bne_iff_ne, beq_iff_eq, not_and] at this
  exact this hxi

lemma invUpdate (db : DB) (i : Nat) (u : String) (a : Int) (r : Row)
    (hf : findByPk db i = some r)
    (hguard : db.rows.any (fun x => x.id != i && x.username == u) = false)
    (hinv : DbInv db) :
    DbInv ⟨db.rows.map
      (fun x => if x.id == i then ⟨r.id, u, r.password, a⟩ else x), db.nextId⟩ := by
  obtain ⟨hid, hun, hlt⟩ := hinv
  have hf2 : db.rows.find? (fun x => x.id == i) = some r := hf
  have hri : r.id = i := by simpa using List.find?_some hf2
  refine ⟨?_, ?_, ?_⟩
  · unfold UniqueIds at hid ⊢
    have hmapid : (db.rows.map
        (fun x => if x.id == i then (⟨r.id, u, r.password, a⟩ : Row) else x)).map
          (fun r => r.id) = db.rows.map (fun r => r.id) := by
      rw [List.map_map]
      apply List.map_congr_left
      intro x _
      by_cases hxi : x.id = i
      · simp [Function.comp_apply, hxi, hri]
      · simp [hxi]
    rw [hmapid]
    exact hid
  · unfold UniqueUsernames at hun ⊢
    exact nodupUsernamesUpdate db.rows i ⟨r.id, u, r.password, a⟩ hid hun
      (fun x hx hxi => anyCollision_eq_false hguard x hx hxi)
  · intro y hy
    simp only [List.mem_map] at hy
    obtain ⟨x, hx, hxy⟩ := hy
    have hyx : y.id = x.id := by
      rw [← hxy]
      by_cases hxi : x.id = i
      · simp [hxi, hri]
      · simp [hxi]
    rw [hyx]
    exact hlt x hx

lemma invDelete (db : DB) (i : Nat) (hinv : DbInv db) :
    DbInv ⟨db.rows.filter (fun r => r.id != i), db.nextId⟩ := by
  obtain ⟨hid, hun, hlt⟩ := hinv
  have hsub : List.Sublist (db.rows.filter (fun r => r.id != i)) db.rows :=
    List.filter_sublist db.rows
  exact ⟨hid.sublist (hsub.map (fun r => r.id)),
    hun.sublist (hsub.map (fun r => r.username)),
    fun r hr => hlt r (hsub.subset hr)⟩

lemma dbInvHandle (req : Request) (db : DB) (h : DbInv db) :
    DbInv (handle req db).2 := by
  cases req with
  | createReq b =>
    cases hb : b.username with
    | none => simpa [handle, userCreate, hb] using h
    | some u =>
      by_cases ht : usernameTaken db u
      · simpa [handle, userCreate, hb, ht] using h
      · have ht2 : usernameTaken db u = false := by simpa using ht
        have hred : handle (.createReq b) db =
            (⟨200, .jsonRow ⟨db.nextId, u, b.password, b.age.getD 22⟩⟩,
             ⟨db.rows ++ [⟨db.nextId, u, b.password, b.age.getD 22⟩], db.nextId + 1⟩) := by
          simp [handle, userCreate, hb, ht2]
        rw [hred]
        exact invCreate db u b.password b.age ht2 h
  | listReq => simpa [handle] using h
  | readReq i =>
    cases hf : findByPk db i with
    | none => simpa [handle, hf] using h
    | some r => simpa [handle, hf] using h
  | updateReq i u a =>
    cases hf : findByPk db i with
    | none => simpa [handle, userUpdate, hf] using h
    | some r =>
      by_cases hg : db.rows.any (fun x => x.id != i && x.username == u)
      · simpa [handle, userUpdate, hf, hg] using h
      · have hg2 : db.rows.any (fun x => x.id != i && x.username == u) = false := by
          simpa using hg
        have hred : handle (.updateReq i u a) db =
            (⟨200, .jsonRow ⟨r.id, u, r.password, a⟩⟩,
             ⟨db.rows.map
               (fun x => if x.id == i then ⟨r.id, u, r.password, a⟩ else x),
              db.nextId⟩) := by
          simp [handle, userUpdate, hf, hg2]
        rw [hred]
        exact invUpdate db i u a r hf hg2 h
  | deleteReq i =>
    cases hf : findByPk db i with
    | none => simpa [handle, userDestroy, hf] using h
    | some r =>
      have hred : handle (.deleteReq i) db =
          (⟨200, .jsonMsg ("User deleted successfully")⟩,
           ⟨db.rows.filter (fun r => r.id != i), db.nextId⟩) := by
        simp [handle, userDestroy, hf]
      rw [hred]
      exact invDelete db i h

lemma findByPkFilterNe (rows : List Row) (n i : Nat) :
    findByPk ⟨rows.filter (fun r => r.id != i), n⟩ i = none := by
  simp only [findByPk]
  rw [List.find?_eq_none]
  intro x hx
  simp only [List.mem_filter, bne_iff_ne] at hx
  simpa using hx.2

lemma userCreate_ok_elim {db : DB} {b : CreateBody} {r : Row} {db2 : DB}
    (h : userCreate db b = .ok (r, db2)) :
    ∃ u, b.username = some u ∧ usernameTaken db u = false ∧
      r = ⟨db.nextId, u, b.password, b.age.getD 22⟩ ∧
      db2 = ⟨db.rows ++ [⟨db.nextId, u, b.password, b.age.getD 22⟩],
        db.nextId + 1⟩ := by
  cases hb : b.username with
  | none => simp [userCreate, hb] at h
  | some u =>
    by_cases ht : usernameTaken db u
    · simp [userCreate, hb, ht] at h
    · have ht2 : usernameTaken db u = false := by simpa using ht
      simp only [userCreate, hb, ht2, Bool.false_eq_true, if_false,
        Except.ok.injEq, Prod.mk.injEq] at h
      exact ⟨u, rfl, ht2, h.1.symm, h.2.symm⟩

lemma handleStatus (req : Request) (db : DB) :
    (handle req db).1.status = 200 ∨ (handle req db).1.status = 404 ∨
      (handle req db).1.status = 500 := by
  cases req with
  | createReq b =>
    cases h : userCreate db b with
    | error e => simp [handle, h, serverError]
    | ok p =>
      obtain ⟨r, db2⟩ := p
      simp [handle, h]
  | listReq => simp [handle]
  | readReq i =>
    cases h : findByPk db i with
    | none => simp [handle, h, notFound]
    | some r => simp [handle, h]
  | updateReq i u a =>
    cases h : userUpdate db i u a with
    | error e => simp [handle, h, serverError]
    | ok o =>
      cases o with
      | none => simp [handle, h, notFound]
      | some p =>
        obtain ⟨r, db2⟩ := p
        simp [handle, h]
  | deleteReq i =>
    cases h : userDestroy db i with
    | none => simp [handle, h, notFound]
    | some db2 => simp [handle, h]

lemma handleJsonOnSuccess (req : Request) (db : DB)
    (hs : (handle req db).1.status = 200) :
    (handle req db).1.body.isJson = true := by
  cases req with
  | createReq b =>
    cases h : userCreate db b with
    | error e => simp [handle, h, serverError] at hs
    | ok p =>
      obtain ⟨r, db2⟩ := p
      simp [handle, h, RespBody.isJson]
  | listReq => simp [handle, RespBody.isJson]
  | readReq i =>
    cases h : findByPk db i with
    | none => simp [handle, h, notFound] at hs
    | some r => simp [handle, h, RespBody.isJson]
  | updateReq i u a =>
    cases h : userUpdate db i u a with
    | error e => simp [handle, h, serverError] at hs
    | ok o =>
      cases o with
      | none => simp [handle, h, notFound] at hs
      | some p =>
        obtain ⟨r, db2⟩ := p
        simp [handle, h, RespBody.isJson]
  | deleteReq i =>
    cases h : userDestroy db i with
    | none => simp [handle, h, notFound] at hs
    | some db2 => simp [handle, h, RespBody.isJson]

-- ## Claims

/-- C7: at process startup exactly one schema-sync call is issued; it
targets the table named user — the model name kept verbatim because
freezeTableName is set, where the default naming would pluralize it to
users — and it runs in alter mode, which changes the table in place and
does not drop an existing table. -/
theorem c7_single_alter_sync_on_user_table
    (auth syncOutcome : Except String Unit) :
    (startupEffects auth syncOutcome).filter (fun e => e.isSyncCall) =
      [.syncTable ("user") .alter] ∧
    tableName userModelName userOptions = "user" ∧
    pluralize userModelName = "users" ∧
    SyncMode.dropsExistingTable .alter = false := by
  refine ⟨?_, rfl, rfl, rfl⟩
  cases auth <;> cases syncOutcome <;> rfl

/-- C8: the id column is an auto-increment integer primary key and the
age column is an integer defaulting to 22; behaviorally, a successful
create assigns the generated id from the auto-increment counter,
advances the counter, and stores age 22 when the input has no age. -/
theorem c8_id_primary_key_age_default :
    userAttributes.find? (fun a => a.name == "id") =
      some ⟨"id", .int, true, false, true, true, none⟩ ∧
    userAttributes.find? (fun a => a.name == "age") =
      some ⟨"age", .int, true, false, false, false, some 22⟩ ∧
    (∀ db b r db2, userCreate db b = .ok (r, db2) →
      r.id = db.nextId ∧ db2.nextId = db.nextId + 1 ∧
        (b.age = none → r.age = 22)) := by
  refine ⟨by decide, by decide, ?_⟩
  intro db b r db2 h
  obtain ⟨u, _, _, hr, hdb2⟩ := userCreate_ok_elim h
  subst hr
  subst hdb2
  refine ⟨rfl, rfl, ?_⟩
  intro ha
  simp [ha]

/-- C9: the synced table has exactly the four columns id, username,
password and age; timestamps are disabled, so no createdAt or updatedAt
column exists. -/
theorem c9_exactly_four_columns :
    tableColumns userAttributes userOptions =
      ["id", "username", "password", "age"] ∧
    userOptions.timestamps = false ∧
    ("createdAt" ∉ tableColumns userAttributes userOptions) ∧
    ("updatedAt" ∉ tableColumns userAttributes userOptions) := by
  refine ⟨by decide, rfl, by decide, by decide⟩

/-- C10: the HTTP listener on port 3000 starts for every outcome of the
database authentication and of the schema sync; the failure handlers of
both asynchronous calls consist of logging only. -/
theorem c10_listen_3000_unconditionally
    (auth syncOutcome : Except String Unit) :
    Effect.httpListen 3000 ∈ startupEffects auth syncOutcome ∧
    (∀ e, (authFailureHandler e).all (fun x => x.isLogEffect) = true) ∧
    (∀ e, (syncFailureHandler e).all (fun x => x.isLogEffect) = true) := by
  refine ⟨?_, fun e => rfl, fun e => rfl⟩
  cases auth <;> cases syncOutcome <;>
    simp [startupEffects, authSuccessHandler, authFailureHandler,
      syncSuccessHandler, syncFailureHandler]

/-- C4: GET /users/:id answers 404 User not found when no row has the
requested id, and answers the one row with that id (status 200)
when it exists, leaving the database unchanged in both cases. -/
theorem c4_read_by_id (db : DB) (i : Nat) :
    (findByPk db i = none →
      handle (.readReq i) db = (⟨404, .text ("User not found")⟩, db)) ∧
    (∀ r, findByPk db i = some r →
      handle (.readReq i) db = (⟨200, .jsonRow r⟩, db)) := by
  constructor
  · intro h
    simp [handle, h, notFound]
  · intro r h
    simp [handle, h]

/-- C4 witness: on a one-row database, reading an absent id yields 404
and reading the present id yields that row. -/
theorem c4_read_by_id_witness :
    handle (.readReq 5) ⟨[⟨1, "a", none, 22⟩], 2⟩ =
      (⟨404, .text ("User not found")⟩, ⟨[⟨1, "a", none, 22⟩], 2⟩) ∧
    handle (.readReq 1) ⟨[⟨1, "a", none, 22⟩], 2⟩ =
      (⟨200, .jsonRow ⟨1, "a", none, 22⟩⟩, ⟨[⟨1, "a", none, 22⟩], 2⟩) :=
  ⟨(c4_read_by_id ⟨[⟨1, "a", none, 22⟩], 2⟩ 5).1 (by decide),
   (c4_read_by_id ⟨[⟨1, "a", none, 22⟩], 2⟩ 1).2 ⟨1, "a", none, 22⟩ (by decide)⟩

/-- C5: deleting an existing id answers the confirmation message, and a
subsequent read of the same id answers 404 User not found. -/
theorem c5_delete_then_read_is_404 (db : DB) (i : Nat) (r : Row)
    (h : findByPk db i = some r) :
    (handle (.deleteReq i) db).1 =
      ⟨200, .jsonMsg ("User deleted successfully")⟩ ∧
    handle (.readReq i) (handle (.deleteReq i) db).2 =
      (⟨404, .text ("User not found")⟩, (handle (.deleteReq i) db).2) := by
  have hdel : handle (.deleteReq i) db =
      (⟨200, .jsonMsg ("User deleted successfully")⟩,
       ⟨db.rows.filter (fun r => r.id != i), db.nextId⟩) := by
    simp [handle, userDestroy, h]
  rw [hdel]
  refine ⟨rfl, ?_⟩
  simp [handle, findByPkFilterNe, notFound]

/-- C5 witness: deleting id 1 from a one-row database confirms the
deletion, and reading id 1 afterwards yields 404. -/
theorem c5_delete_then_read_is_404_witness :
    (handle (.deleteReq 1) ⟨[⟨1, "a", none, 22⟩], 2⟩).1 =
      ⟨200, .jsonMsg ("User deleted successfully")⟩ ∧
    handle (.readReq 1) (handle (.deleteReq 1) ⟨[⟨1, "a", none, 22⟩], 2⟩).2 =
      (⟨404, .text ("User not found")⟩,
       (handle (.deleteReq 1) ⟨[⟨1, "a", none, 22⟩], 2⟩).2) :=
  c5_delete_then_read_is_404 ⟨[⟨1, "a", none, 22⟩], 2⟩ 1 ⟨1, "a", none, 22⟩
    (by decide)

/-- C1: the HTTP layer registers exactly the five routes POST /users,
GET /users, GET /users/:id, PUT /users/:id and DELETE /users/:id; every
handled request is answered with status 200, 404 or 500; every
successful (200) response body is JSON-serialized; a thrown data-access
error is mapped to the generic 500 response; and the list route
delegates to findAll, returning its result as JSON. -/
theorem c1_five_routes_json_and_500 :
    (∀ m p, (dispatch m p).isSome = true ↔
      (m, p) ∈ [(Method.post, PathPattern.usersRoot),
                (Method.get, PathPattern.usersRoot),
                (Method.get, PathPattern.usersId),
                (Method.put, PathPattern.usersId),
                (Method.del, PathPattern.usersId)]) ∧
    (∀ req db, (handle req db).1.status = 200 ∨
      (handle req db).1.status = 404 ∨ (handle req db).1.status = 500) ∧
    (∀ req db, (handle req db).1.status = 200 →
      (handle req db).1.body.isJson = true) ∧
    (∀ db b e, userCreate db b = .error e →
      handle (.createReq b) db = (serverError, db)) ∧
    (∀ db i u a e, userUpdate db i u a = .error e →
      handle (.updateReq i u a) db = (serverError, db)) ∧
    (∀ db, handle .listReq db = (⟨200, .jsonRows (findAll db)⟩, db)) := by
  refine ⟨?_, handleStatus, handleJsonOnSuccess, ?_, ?_, fun db => rfl⟩
  · intro m p
    cases m <;> cases p <;> decide
  · intro db b e h
    simp [handle, h]
  · intro db i u a e h
    simp [handle, h]

/-- C1 witness: a create with a missing username and an update that
would duplicate a username are both answered with the 500 response, and
the list route's 200 response is JSON. -/
theorem c1_five_routes_json_and_500_witness :
    handle (.createReq ⟨none, some ("pw"), none⟩) ⟨[], 1⟩ =
      (serverError, ⟨[], 1⟩) ∧
    handle (.updateReq 1 "b" 0)
        ⟨[⟨1, "a", none, 22⟩, ⟨2, "b", none, 22⟩], 3⟩ =
      (serverError, ⟨[⟨1, "a", none, 22⟩, ⟨2, "b", none, 22⟩], 3⟩) ∧
    (handle .listReq ⟨[], 1⟩).1.body.isJson = true :=
  ⟨c1_five_routes_json_and_500.2.2.2.1 ⟨[], 1⟩ ⟨none, some ("pw"), none⟩
      .validationNull rfl,
   c1_five_routes_json_and_500.2.2.2.2.1
      ⟨[⟨1, "a", none, 22⟩, ⟨2, "b", none, 22⟩], 3⟩ 1 "b" 0
      .uniqueViolation rfl,
   c1_five_routes_json_and_500.2.2.1 .listReq ⟨[], 1⟩ (by decide)⟩

/-- C2 counterexample: in a database where row 1 has username a and row
2 has username b, row 1 exists, yet PUT /users/1 with new username b
does not return an updated record: the uniqueness constraint on
username (src/index.js line 28) makes the write fail, the handler
answers 500 and the database is unchanged. -/
theorem c2_update_collision_counterexample :
    findByPk ⟨[⟨1, "a", some ("pw"), 22⟩, ⟨2, "b", none, 22⟩], 3⟩ 1 =
      some ⟨1, "a", some ("pw"), 22⟩ ∧
    handle (.updateReq 1 "b" 30)
        ⟨[⟨1, "a", some ("pw"), 22⟩, ⟨2, "b", none, 22⟩], 3⟩ =
      (⟨500, .text ("Internal Server Error")⟩,
       ⟨[⟨1, "a", some ("pw"), 22⟩, ⟨2, "b", none, 22⟩], 3⟩) := by
  exact ⟨rfl, rfl⟩

/-- C2 (amended): for every id, the update answers 404 User not found
when no row with that id exists; when the row exists and no other row
already carries the new username, it overwrites exactly the username
and age fields — id and password are taken unchanged from the found row
and every other row is untouched — and returns the updated record with
status 200. -/
theorem c2_update_overwrites_username_age (db : DB) (i : Nat) (u : String)
    (a : Int) :
    (findByPk db i = none →
      handle (.updateReq i u a) db = (⟨404, .text ("User not found")⟩, db)) ∧
    (∀ r, findByPk db i = some r →
      db.rows.any (fun x => x.id != i && x.username == u) = false →
      handle (.updateReq i u a) db =
        (⟨200, .jsonRow ⟨r.id, u, r.password, a⟩⟩,
         ⟨db.rows.map
            (fun x => if x.id == i then ⟨r.id, u, r.password, a⟩ else x),
          db.nextId⟩)) := by
  constructor
  · intro h
    simp [handle, userUpdate, h, notFound]
  · intro r h hg
    simp [handle, userUpdate, h, hg]

/-- C2 witness: updating an absent id answers 404; updating row 1 to a
fresh username overwrites username and age, keeps id and password,
leaves row 2 untouched and returns the updated record. -/
theorem c2_update_overwrites_username_age_witness :
    handle (.updateReq 7 "x" 1) ⟨[], 1⟩ =
      (⟨404, .text ("User not found")⟩, ⟨[], 1⟩) ∧
    handle (.updateReq 1 "c" 30)
        ⟨[⟨1, "a", some ("pw"), 22⟩, ⟨2, "b", none, 22⟩], 3⟩ =
      (⟨200, .jsonRow ⟨1, "c", some ("pw"), 30⟩⟩,
       ⟨[⟨1, "c", some ("pw"), 30⟩, ⟨2, "b", none, 22⟩], 3⟩) := by
  constructor
  · exact (c2_update_overwrites_username_age ⟨[], 1⟩ 7 "x" 1).1 (by decide)
  · exact (c2_update_overwrites_username_age
      ⟨[⟨1, "a", some ("pw"), 22⟩, ⟨2, "b", none, 22⟩], 3⟩ 1 "c" 30).2
      ⟨1, "a", some ("pw"), 22⟩ (by decide) (by decide)

/-- C3: POST /users fails when the username is missing (allowNull
false) or equals an existing row's username (uniqueness constraint); on
success it returns the created record carrying the generated
auto-increment id; and username uniqueness is an invariant preserved by
every operation. -/
theorem c3_create_fails_and_uniqueness_invariant (db : DB) (b : CreateBody) :
    (b.username = none → userCreate db b = .error .validationNull) ∧
    (∀ u, b.username = some u → usernameTaken db u = true →
      userCreate db b = .error .uniqueViolation) ∧
    (∀ u, b.username = some u → usernameTaken db u = false →
      userCreate db b = .ok (⟨db.nextId, u, b.password, b.age.getD 22⟩,
        ⟨db.rows ++ [⟨db.nextId, u, b.password, b.age.getD 22⟩],
         db.nextId + 1⟩)) ∧
    (∀ req, DbInv db → UniqueUsernames (handle req db).2) := by
  refine ⟨?_, ?_, ?_, ?_⟩
  · intro hb
    simp [userCreate, hb]
  · intro u hb ht
    simp [userCreate, hb, ht]
  · intro u hb ht
    simp [userCreate, hb, ht]
  · intro req hinv
    exact (dbInvHandle req db hinv).2.1

/-- C3 witness: on a one-row database, creating without a username
fails, creating the existing username a fails, creating a fresh
username b succeeds with generated id 2, and handling that create
preserves username uniqueness. -/
theorem c3_create_fails_and_uniqueness_invariant_witness :
    userCreate ⟨[⟨1, "a", none, 22⟩], 2⟩ ⟨none, none, none⟩ =
      .error .validationNull ∧
    userCreate ⟨[⟨1, "a", none, 22⟩], 2⟩ ⟨some ("a"), none, none⟩ =
      .error .uniqueViolation ∧
    userCreate ⟨[⟨1, "a", none, 22⟩], 2⟩ ⟨some ("b"), none, some 30⟩ =
      .ok (⟨2, "b", none, 30⟩,
        ⟨[⟨1, "a", none, 22⟩, ⟨2, "b", none, 30⟩], 3⟩) ∧
    UniqueUsernames (handle (.createReq ⟨some ("b"), none, none⟩)
      ⟨[⟨1, "a", none, 22⟩], 2⟩).2 := by
  refine ⟨?_, ?_, ?_, ?_⟩
  · exact (c3_create_fails_and_uniqueness_invariant
      ⟨[⟨1, "a", none, 22⟩], 2⟩ ⟨none, none, none⟩).1 rfl
  · exact (c3_create_fails_and_uniqueness_invariant
      ⟨[⟨1, "a", none, 22⟩], 2⟩ ⟨some ("a"), none, none⟩).2.1 "a" rfl
      (by decide)
  · exact (c3_create_fails_and_uniqueness_invariant
      ⟨[⟨1, "a", none, 22⟩], 2⟩ ⟨some ("b"), none, some 30⟩).2.2.1 "b" rfl
      (by decide)
  · exact (c3_create_fails_and_uniqueness_invariant
      ⟨[⟨1, "a", none, 22⟩], 2⟩ ⟨some ("b"), none, none⟩).2.2.2
      (.createReq ⟨some ("b"), none, none⟩)
      ⟨by simp [UniqueIds], by simp [UniqueUsernames], by simp [IdsBelowNext]⟩

/-- C6 counterexample: a database-connectivity failure at startup is
handled by the catch of sequelize.authenticate (src/index.js line 13),
which only logs Database Connection Failed: no HTTP response of any
status — 404 and 500 included — is produced for this failure, and the
schema-sync catch handler (line 54) behaves the same way. -/
theorem c6_startup_failure_counterexample :
    authFailureHandler ("connection refused") =
      [.log ("Database Connection Failed connection refused")] ∧
    (authFailureHandler ("connection refused")).any
      (fun e => e.isHttpEffect) = false ∧
    (syncFailureHandler ("sync failed")).any
      (fun e => e.isHttpEffect) = false := by
  exact ⟨rfl, rfl, rfl⟩

/-- C6 (amended): every failure raised during request handling is
caught at the route handler and converted to a 404 (resource absent) or
a 500 — every response carries status 200, 404 or 500, a data-access
error always yields the 500 response, and an absent row yields the 404
response; the startup failures of the database authentication and of
the schema sync are caught by their catch handlers and only logged,
producing no HTTP response at all. -/
theorem c6_failures_become_404_500_or_log :
    (∀ req db, (handle req db).1.status = 200 ∨
      (handle req db).1.status = 404 ∨ (handle req db).1.status = 500) ∧
    (∀ db b e, userCreate db b = .error e →
      (handle (.createReq b) db).1 = serverError) ∧
    (∀ db i u a e, userUpdate db i u a = .error e →
      (handle (.updateReq i u a) db).1 = serverError) ∧
    (∀ db i, findByPk db i = none →
      (handle (.readReq i) db).1 = notFound) ∧
    (∀ e, (authFailureHandler e).all (fun x => x.isLogEffect) = true ∧
      (authFailureHandler e).any (fun x => x.isHttpEffect) = false) ∧
    (∀ e, (syncFailureHandler e).all (fun x => x.isLogEffect) = true ∧
      (syncFailureHandler e).any (fun x => x.isHttpEffect) = false) := by
  refine ⟨handleStatus, ?_, ?_, ?_, fun e => ⟨rfl, rfl⟩, fun e => ⟨rfl, rfl⟩⟩
  · intro db b e h
    simp [handle, h]
  · intro db i u a e h
    simp [handle, h]
  · intro db i h
    simp [handle, h]

/-- C6 witness: concrete failing requests are answered 500 (duplicate
username on create) and 404 (read of an absent id). -/
theorem c6_failures_become_404_500_or_log_witness :
    (handle (.createReq ⟨some ("a"), none, none⟩)
      ⟨[⟨1, "a", none, 22⟩], 2⟩).1 = serverError ∧
    (handle (.readReq 9) ⟨[⟨1, "a", none, 22⟩], 2⟩).1 = notFound :=
  ⟨c6_failures_become_404_500_or_log.2.1 ⟨[⟨1, "a", none, 22⟩], 2⟩
      ⟨some ("a"), none, none⟩ .uniqueViolation rfl,
   c6_failures_become_404_500_or_log.2.2.2.1 ⟨[⟨1, "a", none, 22⟩], 2⟩ 9
      (by decide)⟩

/-- C8 witness: creating username a with no age on an empty database
yields the row with the generated id 1, advances the counter to 2, and
stores the default age 22. -/
theorem c8_id_primary_key_age_default_witness :
    (⟨1, "a", none, 22⟩ : Row).id = (⟨[], 1⟩ : DB).nextId ∧
    (⟨[⟨1, "a", none, 22⟩], 2⟩ : DB).nextId = (⟨[], 1⟩ : DB).nextId + 1 ∧
    (⟨1, "a", none, 22⟩ : Row).age = 22 := by
  have h := c8_id_primary_key_age_default.2.2 ⟨[], 1⟩ ⟨some ("a"), none, none⟩
    ⟨1, "a", none, 22⟩ ⟨[⟨1, "a", none, 22⟩], 2⟩ rfl
  exact ⟨h.1, h.2.1, h.2.2 rfl⟩
